import Mathlib

/-!
Shallow embedding of the Telegram relay bot (`config.py`, `storage.py`,
`main.py`) and proofs about its binding store and routing resolver.

Modelling conventions:
* Chat identifiers are `Int` (Telegram chat ids may be negative).
* The SQLite `projects` table is a `List Project` in rowid (insertion)
  order: the table is an ordinary rowid table, rows are appended by
  `INSERT`, and a full table scan (the only access path for the
  `customer_chat_id = ? OR executor_chat_id = ?` query, which has no
  index and no ORDER BY) visits rows in rowid order.
* `UPDATE ... WHERE slug = ?` is a map over the list touching rows whose
  `slug` matches.
* A raised `ValueError` is `Except.error` carrying the exception message;
  every operation also returns the (possibly unchanged) store.
* Python truthiness (`if not target_chat_id`, `if original_caption`,
  `if message.text`, `elif message.photo`) is embedded by `truthyInt`,
  `truthyStr` and list non-emptiness, so `0`, `""`, `None` and `[]` are
  all falsy exactly as in the source.
-/

/-- Row of the `projects` table / the `Project` dataclass of `storage.py`. -/
structure Project where
  slug : String
  customer_chat_id : Option Int
  executor_chat_id : Option Int
  is_active : Bool
deriving Repr, DecidableEq

/-- The `projects` table in rowid (insertion) order. -/
abbrev Store := List Project

/-- Python truthiness of an optional integer: `None` and `0` are falsy. -/
def truthyInt : Option Int → Bool
  | none => false
  | some i => i != 0

/-- Python truthiness of an optional string: `None` and `""` are falsy. -/
def truthyStr : Option String → Bool
  | none => false
  | some t => t != ""

/-- WHERE clause of `find_by_chat_id`:
`customer_chat_id = ? OR executor_chat_id = ?` (SQL `NULL` never matches). -/
def chat_matches (chat_id : Int) (p : Project) : Bool :=
  p.customer_chat_id == some chat_id || p.executor_chat_id == some chat_id

/-- WHERE clause of the slug lookups: `slug = ?` (case-sensitive, SQLite
binary collation on TEXT). -/
def slug_matches (slug : String) (p : Project) : Bool :=
  p.slug == slug

/-- `SQLiteProjectRepository.find_by_slug`: `SELECT ... WHERE slug = ?`
with `fetchone`, i.e. the first row matching the slug. -/
def find_by_slug (s : Store) (slug : String) : Option Project :=
  s.find? (slug_matches slug)

/-- `SQLiteProjectRepository.create_project`: checks for an existing row
with the same slug (raising `ValueError("Project already exists")`), else
inserts `(slug, NULL, executor_chat_id, 1)` and returns the new project. -/
def create_project (s : Store) (slug : String) (executor_chat_id : Int) :
    Except String Project × Store :=
  if (s.find? (slug_matches slug)).isSome then
    (.error "Project already exists", s)
  else
    let p : Project :=
      { slug := slug, customer_chat_id := none
        executor_chat_id := some executor_chat_id, is_active := true }
    (.ok p, s ++ [p])

/-- `SQLiteProjectRepository.bind_customer_chat`: `find_by_slug`, raising
`ValueError("Project not found")` when absent, else
`UPDATE projects SET customer_chat_id = ?, is_active = 1 WHERE slug = ?`
and returns the mutated dataclass. -/
def bind_customer_chat (s : Store) (slug : String) (chat_id : Int) :
    Except String Project × Store :=
  match find_by_slug s slug with
  | none => (.error "Project not found", s)
  | some project =>
    let s' := s.map fun p =>
      if p.slug == slug then
        { p with customer_chat_id := some chat_id, is_active := true }
      else p
    (.ok { project with customer_chat_id := some chat_id, is_active := true }, s')

/-- `SQLiteProjectRepository.find_by_chat_id`:
`SELECT ... WHERE customer_chat_id = ? OR executor_chat_id = ?` with
`fetchone` (first matching row in scan order); the role is `"customer"`
if the returned row's `customer_chat_id` equals the argument, else
`"executor"`. -/
def find_by_chat_id (s : Store) (chat_id : Int) : Option (Project × String) :=
  match s.find? (chat_matches chat_id) with
  | none => none
  | some project =>
    let role := if project.customer_chat_id == some chat_id then "customer" else "executor"
    some (project, role)

/-- Lexicographic comparison of character lists by codepoint; on UTF-8
strings codepoint order coincides with byte (memcmp) order. -/
def chars_le : List Char → List Char → Bool
  | [], _ => true
  | _ :: _, [] => false
  | a :: as, b :: bs =>
    if a.toNat < b.toNat then true
    else if b.toNat < a.toNat then false
    else chars_le as bs

/-- SQLite's default BINARY collation on TEXT: byte-wise comparison. -/
def slug_le (a b : String) : Bool :=
  chars_le a.data b.data

/-- Insertion step of the slug sort. -/
def insert_by_slug (p : Project) : List Project → List Project
  | [] => [p]
  | q :: rest => if slug_le p.slug q.slug then p :: q :: rest else q :: insert_by_slug p rest

/-- Sort of the result rows by slug ascending (insertion sort; slugs are
unique under the PRIMARY KEY, so ties need no tiebreak). -/
def sort_by_slug : List Project → List Project
  | [] => []
  | p :: rest => insert_by_slug p (sort_by_slug rest)

/-- `SQLiteProjectRepository.list_projects`:
`SELECT ... FROM projects ORDER BY slug` (ascending, binary collation). -/
def list_projects (s : Store) : List Project :=
  sort_by_slug s

/-- `SQLiteProjectRepository.unlink_chat`: `find_by_slug`, raising
`ValueError("Project not found")` when absent; clears `customer_chat_id`
if it equals `chat_id`, clears `executor_chat_id` if it equals `chat_id`,
then `UPDATE ... SET customer_chat_id = ?, executor_chat_id = ?,
is_active = 0 WHERE slug = ?`. -/
def unlink_chat (s : Store) (slug : String) (chat_id : Int) :
    Except String Project × Store :=
  match find_by_slug s slug with
  | none => (.error "Project not found", s)
  | some project =>
    let new_customer :=
      if project.customer_chat_id == some chat_id then none else project.customer_chat_id
    let new_executor :=
      if project.executor_chat_id == some chat_id then none else project.executor_chat_id
    let s' := s.map fun p =>
      if p.slug == slug then
        { p with customer_chat_id := new_customer
                 executor_chat_id := new_executor
                 is_active := false }
      else p
    (.ok { project with customer_chat_id := new_customer
                        executor_chat_id := new_executor
                        is_active := false }, s')

/-- Runtime configuration (`config.py`). `load_config` reads environment
variables and is process bootstrap, out of the pure model. -/
structure Config where
  bot_token : String
  admin_user_id : Int
  db_path : String
deriving Repr, DecidableEq

/-- Default administrator id, `ASKEDITME_TELEGRAM_ID` in `config.py`. -/
def ASKEDITME_TELEGRAM_ID : Int := 205386594

/-- The parts of a Telegram user the bot reads: `user.id`, `user.is_bot`. -/
structure User where
  id : Int
  is_bot : Bool
deriving Repr, DecidableEq

/-- The parts of a Telegram message `relay_message` reads. Media fields
hold the `file_id`; `photo` is the list of size variants (the code takes
the last). -/
structure Message where
  chat_id : Int
  from_user : Option User
  text : Option String
  caption : Option String
  document : Option String
  photo : List String
  voice : Option String
  audio : Option String
  video : Option String
deriving Repr, DecidableEq

/-- `is_admin` of `main.py`: `bool(user and user.id == config.admin_user_id)`
over the optional `update.effective_user`. -/
def is_admin (effective_user : Option User) (config : Config) : Bool :=
  match effective_user with
  | none => false
  | some user => user.id == config.admin_user_id

/-- `ensure_admin` of `main.py`: returns `is_admin`; when it is false the
handler has already replied the refusal notice (represented by the
caller's `adminDenied` output). -/
def ensure_admin (effective_user : Option User) (config : Config) : Bool :=
  is_admin effective_user config

/-- `caption_for_role` of `main.py`. -/
def caption_for_role (role : String) : String :=
  if role == "executor" then "🧑‍🎨 Сообщение от команды." else "👤 Сообщение от клиента."

/-- `build_media_caption` of `main.py`: the role label, then the original
caption on a new line when it is truthy. -/
def build_media_caption (role : String) (original_caption : Option String) : String :=
  let base := caption_for_role role
  if truthyStr original_caption then base ++ "\n" ++ original_caption.getD ""
  else base

/-- `prefix_for_role` of `main.py`. -/
def prefix_for_role (role : String) : String :=
  if role == "executor" then "🧑‍🎨 Сообщение от команды: " else "👤 Сообщение от клиента: "

/-- Observable outcome of `relay_message`: which transport call is
attempted (or which notice is replied to the sender). The
`try/except TelegramError` around the sends handles transport failure and
stays outside the pure model. -/
inductive RelayAction where
  | ignored
  | noPairing
  | sendMessage (target : Int) (text : String)
  | sendDocument (target : Int) (file_id : String) (caption : String)
  | sendPhoto (target : Int) (file_id : String) (caption : String)
  | sendVoice (target : Int) (file_id : String) (caption : String)
  | sendAudio (target : Int) (file_id : String) (caption : String)
  | sendVideo (target : Int) (file_id : String) (caption : String)
  | unsupported
deriving Repr, DecidableEq

/-- `relay_message` of `main.py` over `update.effective_message`. Returns
early (`ignored`) on a missing message, a bot sender, or an endpoint
bound to no project; replies the no-pairing notice when the counterpart
side is falsy; otherwise dispatches on the message content in source
order (text, document, photo, voice, audio, video, unsupported).
Note line 180 of the source overwrites the `build_media_caption` result
with the bare role label. -/
def relay_message (s : Store) (message : Option Message) : RelayAction :=
  match message with
  | none => .ignored
  | some message =>
    if (match message.from_user with | some u => u.is_bot | none => false) then .ignored
    else
      match find_by_chat_id s message.chat_id with
      | none => .ignored
      | some (project, role) =>
        let target_chat_id :=
          if role == "executor" then project.customer_chat_id else project.executor_chat_id
        if truthyInt target_chat_id = false then .noPairing
        else
          let t := target_chat_id.getD 0
          let caption := build_media_caption role message.caption
          let caption := caption_for_role role
          let pre := prefix_for_role role
          if truthyStr message.text then .sendMessage t (pre ++ message.text.getD "")
          else if message.document.isSome then .sendDocument t (message.document.getD "") caption
          else if !message.photo.isEmpty then
            .sendPhoto t (message.photo.getLast?.getD "") caption
          else if message.voice.isSome then .sendVoice t (message.voice.getD "") caption
          else if message.audio.isSome then .sendAudio t (message.audio.getD "") caption
          else if message.video.isSome then .sendVideo t (message.video.getD "") caption
          else .unsupported

/-- The parts of an update a command handler reads: the issuing user, the
chat the command was issued in (`update.effective_chat.id`) and the
command arguments (`context.args`). -/
structure Update where
  effective_user : Option User
  effective_chat_id : Int
  args : List String
deriving Repr, DecidableEq

/-- Observable outcome of a command handler: the reply sent to the
issuing chat, tagged by which branch produced it. -/
inductive HandlerOutput where
  | adminDenied
  | usageReply (text : String)
  | errorReply (text : String)
  | reply (text : String)
deriving Repr, DecidableEq

/-- `build_project_status` of `main.py` (note Python truthiness: a bound
chat id of `0` renders as "не привязан"). -/
def build_project_status (project : Project) : String :=
  let customer_status :=
    if truthyInt project.customer_chat_id then
      "привязан (" ++ toString (project.customer_chat_id.getD 0) ++ ")"
    else "не привязан"
  let executor_status :=
    if truthyInt project.executor_chat_id then
      "привязан (" ++ toString (project.executor_chat_id.getD 0) ++ ")"
    else "не привязан"
  let active_status := if project.is_active then "активен" else "неактивен"
  project.slug ++ ": заказчик — " ++ customer_status ++ ", исполнители — " ++
    executor_status ++ ", статус — " ++ active_status

/-- `create_project_handler` of `main.py`. -/
def create_project_handler (u : Update) (config : Config) (s : Store) :
    HandlerOutput × Store :=
  if ensure_admin u.effective_user config = false then (.adminDenied, s)
  else
    match u.args with
    | [] => (.usageReply "Использование: /create_project <slug>", s)
    | slug :: _ =>
      match create_project s slug u.effective_chat_id with
      | (.error exc, s') => (.errorReply exc, s')
      | (.ok _, s') =>
        (.reply ("Проект " ++ slug ++
          " создан. Теперь зайдите в чат с заказчиками и выполните /bind_customer " ++
          slug ++ "."), s')

/-- `bind_customer_handler` of `main.py`. -/
def bind_customer_handler (u : Update) (config : Config) (s : Store) :
    HandlerOutput × Store :=
  if ensure_admin u.effective_user config = false then (.adminDenied, s)
  else
    match u.args with
    | [] => (.usageReply "Использование: /bind_customer <slug>", s)
    | slug :: _ =>
      match bind_customer_chat s slug u.effective_chat_id with
      | (.error exc, s') => (.errorReply exc, s')
      | (.ok project, s') =>
        (.reply ("Проект " ++ project.slug ++ ": чат заказчика успешно привязан."), s')

/-- `project_info_handler` of `main.py`. It takes no `config` and performs
no admin check in the source. -/
def project_info_handler (u : Update) (s : Store) : HandlerOutput × Store :=
  match find_by_chat_id s u.effective_chat_id with
  | none => (.reply "Этот чат не привязан ни к одному проекту.", s)
  | some (project, role) =>
    let role_name := if role == "executor" then "чат исполнителей" else "чат заказчиков"
    (.reply ("Проект: " ++ project.slug ++ "\nТип чата: " ++ role_name ++
      "\nСтатус: " ++ (if project.is_active then "активен" else "неактивен")), s)

/-- `list_projects_handler` of `main.py`. -/
def list_projects_handler (u : Update) (config : Config) (s : Store) :
    HandlerOutput × Store :=
  if ensure_admin u.effective_user config = false then (.adminDenied, s)
  else
    match list_projects s with
    | [] => (.reply "Проектов пока нет.", s)
    | projects =>
      (.reply (String.intercalate "\n"
        ("Список проектов:" :: projects.map build_project_status)), s)

/-- `unlink_project_handler` of `main.py`. -/
def unlink_project_handler (u : Update) (config : Config) (s : Store) :
    HandlerOutput × Store :=
  if ensure_admin u.effective_user config = false then (.adminDenied, s)
  else
    match u.args with
    | [] => (.usageReply "Использование: /unlink_project <slug>", s)
    | slug :: _ =>
      match unlink_chat s slug u.effective_chat_id with
      | (.error exc, s') => (.errorReply exc, s')
      | (.ok project, s') =>
        (.reply ("Проект " ++ project.slug ++ ": чат отвязан, проект деактивирован."), s')

/-- Modelled from the spec: the spec's reading of `findByEndpoint`, which
expects the first qualifying record under the store's natural key
ordering, i.e. slug ascending — stated only for comparison with the
source's `find_by_chat_id`. -/
def find_by_chat_id_slug_ordered (s : Store) (chat_id : Int) : Option (Project × String) :=
  find_by_chat_id (sort_by_slug s) chat_id

/-- Example store of the spec's scenarios: `createProject("proj1", 100)`
then `bindCustomer("proj1", 200)` on an empty store. -/
def boundPairStore : Store :=
  (bind_customer_chat (create_project [] "proj1" 100).2 "proj1" 200).2

/-- Example store holding two projects both bound to executor endpoint
100, created as slug "b" first and slug "a" second. -/
def twoProjectStore : Store :=
  (create_project (create_project [] "b" 100).2 "a" 100).2

/-- Helper: `List.find?` commutes with a map that does not change the
predicate's verdict on any list element. -/
theorem find?_map_pointwise {α : Type} (f : α → α) (q : α → Bool) :
    ∀ l : List α, (∀ x ∈ l, q (f x) = q x) →
      (l.map f).find? q = (l.find? q).map f := by
  intro l
  induction l with
  | nil => intro _; rfl
  | cons a l ih =>
    intro h
    have ha := h a (List.mem_cons_self a l)
    by_cases hqa : q a = true
    · rw [List.map_cons, List.find?_cons_of_pos _ (ha.trans hqa),
        List.find?_cons_of_pos _ hqa]
      rfl
    · rw [List.map_cons, List.find?_cons_of_neg _ (by simp [ha, hqa]),
        List.find?_cons_of_neg _ (by simp [hqa])]
      exact ih fun x hx => h x (List.mem_cons_of_mem a hx)

/-- Helper: a successful `find_by_slug` returns a member of the store
whose slug is the searched one. -/
theorem find_by_slug_mem {s : Store} {slug : String} {p : Project}
    (h : find_by_slug s slug = some p) : p ∈ s ∧ p.slug = slug := by
  refine ⟨List.mem_of_find?_eq_some h, ?_⟩
  have hq := List.find?_some h
  simpa [slug_matches] using hq

/-- Helper: in a store whose slug column is duplicate-free (the PRIMARY
KEY constraint of the `projects` table), two members with the same slug
are the same row. -/
theorem eq_of_slug_eq_of_nodup {s : Store} (hnd : (s.map Project.slug).Nodup)
    {x y : Project} (hx : x ∈ s) (hy : y ∈ s) (h : x.slug = y.slug) : x = y :=
  List.inj_on_of_nodup_map hnd hx hy h

/-- Helper: `List.find?` returns the element at the first index where the
predicate holds. -/
theorem find?_first_index {α : Type} (q : α → Bool) :
    ∀ (l : List α) (a : α), l.find? q = some a →
      ∃ i : Fin l.length, l.get i = a ∧
        ∀ j : Fin l.length, j.val < i.val → q (l.get j) = false := by
  intro l
  induction l with
  | nil => intro a h; simp at h
  | cons x xs ih =>
    intro a h
    cases hqx : q x with
    | true =>
      rw [List.find?_cons_of_pos _ hqx] at h
      refine ⟨⟨0, by simp⟩, by simpa using h, ?_⟩
      intro j hj
      exact absurd hj (Nat.not_lt_zero _)
    | false =>
      rw [List.find?_cons_of_neg _ (by simp [hqx])] at h
      obtain ⟨i, hi, hj⟩ := ih a h
      refine ⟨⟨i.val + 1, by simpa using i.isLt⟩, by simpa using hi, ?_⟩
      intro j hjlt
      match j with
      | ⟨0, h0⟩ => exact hqx
      | ⟨jv + 1, hjv⟩ =>
        have hlt : jv < i.val := by
          simpa using hjlt
        have := hj ⟨jv, by simp at hjv; omega⟩ hlt
        simpa using this

/-- C1: on a relayed media message carrying an original caption the code
forwards the bare role label: line 180 of `main.py` overwrites the
`build_media_caption` result computed on line 179, so the original
caption is dropped instead of being appended after the label as
`build_media_caption` (and the spec) prescribe. -/
theorem relay_drops_original_media_caption :
    relay_message [{ slug := "proj1", customer_chat_id := some 200,
                     executor_chat_id := some 100, is_active := true }]
      (some { chat_id := 100, from_user := some { id := 5, is_bot := false },
              text := none, caption := some "hi", document := some "doc1",
              photo := [], voice := none, audio := none, video := none }) =
      .sendDocument 200 "doc1" (caption_for_role "executor") ∧
    caption_for_role "executor" ≠ build_media_caption "executor" (some "hi") := by
  exact ⟨rfl, by decide⟩

/-- C2 (amended): the four state-touching administrative commands —
create_project, bind_customer, list_projects and unlink_project — refuse
any issuer other than the configured administrator, leaving the store
unchanged; project_info is not part of the gated set. -/
theorem admin_commands_gated (u : Update) (config : Config) (s : Store)
    (h : is_admin u.effective_user config = false) :
    create_project_handler u config s = (.adminDenied, s) ∧
    bind_customer_handler u config s = (.adminDenied, s) ∧
    list_projects_handler u config s = (.adminDenied, s) ∧
    unlink_project_handler u config s = (.adminDenied, s) := by
  refine ⟨?_, ?_, ?_, ?_⟩ <;>
    simp [create_project_handler, bind_customer_handler, list_projects_handler,
      unlink_project_handler, ensure_admin, h]

/-- C2 (witness): a user with id 2 is rejected by every gated command
when the configured administrator id is 1. -/
theorem admin_commands_gated_witness :
    create_project_handler
        { effective_user := some { id := 2, is_bot := false },
          effective_chat_id := 100, args := ["proj1"] }
        { bot_token := "t", admin_user_id := 1, db_path := "db" } [] =
      (.adminDenied, []) ∧
    bind_customer_handler
        { effective_user := some { id := 2, is_bot := false },
          effective_chat_id := 100, args := ["proj1"] }
        { bot_token := "t", admin_user_id := 1, db_path := "db" } [] =
      (.adminDenied, []) ∧
    list_projects_handler
        { effective_user := some { id := 2, is_bot := false },
          effective_chat_id := 100, args := ["proj1"] }
        { bot_token := "t", admin_user_id := 1, db_path := "db" } [] =
      (.adminDenied, []) ∧
    unlink_project_handler
        { effective_user := some { id := 2, is_bot := false },
          effective_chat_id := 100, args := ["proj1"] }
        { bot_token := "t", admin_user_id := 1, db_path := "db" } [] =
      (.adminDenied, []) :=
  admin_commands_gated _ _ _ (by decide)

/-- C2 (counterexample): project_info performs its lookup and reports the
binding for a non-administrator issuer — its handler takes no config and
performs no admin check — refuting the claim that every command of the
administrative surface is authorization-gated. -/
theorem project_info_reaches_action_for_non_admin :
    is_admin (some { id := 2, is_bot := false })
      { bot_token := "t", admin_user_id := 1, db_path := "db" } = false ∧
    project_info_handler
        { effective_user := some { id := 2, is_bot := false },
          effective_chat_id := 100, args := [] }
        [{ slug := "proj1", customer_chat_id := some 200,
           executor_chat_id := some 100, is_active := true }] =
      (.reply "Проект: proj1\nТип чата: чат исполнителей\nСтатус: активен",
       [{ slug := "proj1", customer_chat_id := some 200,
          executor_chat_id := some 100, is_active := true }]) :=
  ⟨rfl, rfl⟩

/-- C3 (counterexample): with projects inserted as slug "b" then slug "a",
both claiming executor endpoint 100, `find_by_chat_id` returns the "b"
project — the first match in insertion (rowid) order — while the spec's
slug-ascending reading returns the "a" project, so the two disagree. -/
theorem find_by_chat_id_not_slug_ordered :
    find_by_chat_id twoProjectStore 100 =
      some ({ slug := "b", customer_chat_id := none,
              executor_chat_id := some 100, is_active := true }, "executor") ∧
    find_by_chat_id_slug_ordered twoProjectStore 100 =
      some ({ slug := "a", customer_chat_id := none,
              executor_chat_id := some 100, is_active := true }, "executor") ∧
    find_by_chat_id twoProjectStore 100 ≠ find_by_chat_id_slug_ordered twoProjectStore 100 := by
  refine ⟨rfl, rfl, ?_⟩
  decide

/-- C4: once `create_project` has succeeded for a slug, a second
`create_project` with the same slug (whatever the executor endpoint)
fails with the duplicate-slug error and returns the store unchanged from
the state after the first call. -/
theorem create_project_duplicate_slug (s : Store) (slug : String) (e1 e2 : Int)
    (p : Project) (h : (create_project s slug e1).1 = .ok p) :
    create_project (create_project s slug e1).2 slug e2 =
      (.error "Project already exists", (create_project s slug e1).2) := by
  cases hnone : s.find? (slug_matches slug) with
  | some v => simp [create_project, hnone] at h
  | none => simp [create_project, hnone, List.find?_append, slug_matches]

/-- C4 (witness): concrete duplicate creation of slug "proj1". -/
theorem create_project_duplicate_slug_witness :
    create_project (create_project [] "proj1" 100).2 "proj1" 300 =
      (.error "Project already exists", (create_project [] "proj1" 100).2) :=
  create_project_duplicate_slug [] "proj1" 100 300
    { slug := "proj1", customer_chat_id := none,
      executor_chat_id := some 100, is_active := true } rfl

/-- C7: after creating "proj1" from endpoint 100 and binding customer
endpoint 200, endpoint lookups resolve 100 to the executor side and 200
to the customer side, and relayed messages cross over: a message from
100 is delivered to 200 and a message from 200 to 100. -/
theorem bound_pair_routing_example :
    find_by_chat_id boundPairStore 100 =
      some ({ slug := "proj1", customer_chat_id := some 200,
              executor_chat_id := some 100, is_active := true }, "executor") ∧
    find_by_chat_id boundPairStore 200 =
      some ({ slug := "proj1", customer_chat_id := some 200,
              executor_chat_id := some 100, is_active := true }, "customer") ∧
    relay_message boundPairStore
        (some { chat_id := 100, from_user := some { id := 5, is_bot := false },
                text := some "hi", caption := none, document := none,
                photo := [], voice := none, audio := none, video := none }) =
      .sendMessage 200 ("🧑‍🎨 Сообщение от команды: " ++ "hi") ∧
    relay_message boundPairStore
        (some { chat_id := 200, from_user := some { id := 5, is_bot := false },
                text := some "hi", caption := none, document := none,
                photo := [], voice := none, audio := none, video := none }) =
      .sendMessage 100 ("👤 Сообщение от клиента: " ++ "hi") :=
  ⟨rfl, rfl, rfl, rfl⟩

/-- C9: creating a fresh slug succeeds and a subsequent slug lookup
returns a project with the creator's endpoint on the executor side, no
customer binding, and the active flag set. -/
theorem create_project_fresh_slug (s : Store) (slug : String) (e : Int)
    (h : find_by_slug s slug = none) :
    (create_project s slug e).1 =
      .ok { slug := slug, customer_chat_id := none,
            executor_chat_id := some e, is_active := true } ∧
    find_by_slug (create_project s slug e).2 slug =
      some { slug := slug, customer_chat_id := none,
             executor_chat_id := some e, is_active := true } := by
  have hnone : s.find? (slug_matches slug) = none := h
  constructor
  · simp [create_project, hnone]
  · simp [create_project, find_by_slug, hnone, List.find?_append, slug_matches]

/-- C9 (witness): creating "proj1" from endpoint 100 in the empty store. -/
theorem create_project_fresh_slug_witness :
    (create_project [] "proj1" 100).1 =
      .ok { slug := "proj1", customer_chat_id := none,
            executor_chat_id := some 100, is_active := true } ∧
    find_by_slug (create_project [] "proj1" 100).2 "proj1" =
      some { slug := "proj1", customer_chat_id := none,
             executor_chat_id := some 100, is_active := true } :=
  create_project_fresh_slug [] "proj1" 100 rfl

/-- C10: when the matched project stores the counterpart endpoint as the
integer 0, the relay replies the no-pairing notice and never forwards:
the Python check `if not target_chat_id` treats the endpoint value 0 like
an unbound side. -/
theorem zero_counterpart_treated_as_absent (s : Store) (m : Message)
    (p : Project) (role : String)
    (hbot : (match m.from_user with | some u => u.is_bot | none => false) = false)
    (hfind : find_by_chat_id s m.chat_id = some (p, role))
    (hzero : (if role = "executor" then p.customer_chat_id
              else p.executor_chat_id) = some 0) :
    relay_message s (some m) = .noPairing := by
  simp [relay_message, hbot, hfind, hzero, truthyInt]

/-- C10 (witness): a project with customer endpoint 0 and executor
endpoint 100; a text message from 100 gets the no-pairing notice. -/
theorem zero_counterpart_treated_as_absent_witness :
    relay_message [{ slug := "p0", customer_chat_id := some 0,
                     executor_chat_id := some 100, is_active := true }]
      (some { chat_id := 100, from_user := some { id := 5, is_bot := false },
              text := some "hi", caption := none, document := none,
              photo := [], voice := none, audio := none, video := none }) =
      .noPairing :=
  zero_counterpart_treated_as_absent _ _
    { slug := "p0", customer_chat_id := some 0,
      executor_chat_id := some 100, is_active := true }
    "executor" rfl rfl rfl

/-- C3 (amended): `find_by_chat_id` scans both binding columns for an
exact match and returns the record at the first position of the store's
insertion (rowid) order where either column matches — not slug order —
with role "customer" exactly when the returned project's customer column
equals the endpoint, else "executor". -/
theorem find_by_chat_id_first_in_insertion_order (s : Store) (c : Int)
    (p : Project) (r : String) (h : find_by_chat_id s c = some (p, r)) :
    chat_matches c p = true ∧
    (∃ i : Fin s.length, s.get i = p ∧
       ∀ j : Fin s.length, j.val < i.val → chat_matches c (s.get j) = false) ∧
    r = (if p.customer_chat_id = some c then "customer" else "executor") := by
  unfold find_by_chat_id at h
  cases hf : s.find? (chat_matches c) with
  | none => rw [hf] at h; simp at h
  | some q =>
    rw [hf] at h
    simp only [Option.some.injEq, Prod.mk.injEq] at h
    obtain ⟨hqp, hr⟩ := h
    rw [hqp] at hf hr
    refine ⟨List.find?_some hf, find?_first_index _ s p hf, ?_⟩
    rw [← hr]
    by_cases hcc : p.customer_chat_id = some c
    · simp [hcc]
    · simp [hcc]

/-- C3 (amended, witness): in the two-project store the lookup of
endpoint 100 returns the "b" project, sitting at the first matching
insertion position, with role "executor". -/
theorem find_by_chat_id_first_in_insertion_order_witness :
    chat_matches 100 { slug := "b", customer_chat_id := none,
                       executor_chat_id := some 100, is_active := true } = true ∧
    (∃ i : Fin twoProjectStore.length,
       twoProjectStore.get i = { slug := "b", customer_chat_id := none,
                                 executor_chat_id := some 100, is_active := true } ∧
       ∀ j : Fin twoProjectStore.length, j.val < i.val →
         chat_matches 100 (twoProjectStore.get j) = false) ∧
    "executor" =
      (if ({ slug := "b", customer_chat_id := none, executor_chat_id := some 100,
             is_active := true } : Project).customer_chat_id = some 100
       then "customer" else "executor") :=
  find_by_chat_id_first_in_insertion_order twoProjectStore 100 _ _ rfl

/-- C5: `bind_customer_chat` fails with the project-not-found error
exactly when the slug is unknown, leaving the store unchanged; otherwise
it succeeds and the project afterwards carries the given endpoint as
customer binding and the active flag set, whatever its prior customer
binding and active state were. -/
theorem bind_customer_chat_spec (s : Store) (slug : String) (e : Int) :
    (find_by_slug s slug = none →
       bind_customer_chat s slug e = (.error "Project not found", s)) ∧
    (∀ p : Project, find_by_slug s slug = some p →
       (bind_customer_chat s slug e).1 =
         .ok { slug := p.slug, customer_chat_id := some e,
               executor_chat_id := p.executor_chat_id, is_active := true } ∧
       find_by_slug (bind_customer_chat s slug e).2 slug =
         some { slug := p.slug, customer_chat_id := some e,
                executor_chat_id := p.executor_chat_id, is_active := true }) := by
  constructor
  · intro h
    simp [bind_customer_chat, h]
  · intro p hp
    have hmem := find_by_slug_mem hp
    have hq : ∀ x ∈ s, slug_matches slug
        ((fun x : Project =>
          if x.slug == slug then
            { x with customer_chat_id := some e, is_active := true }
          else x) x) = slug_matches slug x := by
      intro x _
      by_cases hxs : (x.slug == slug) = true
      · simp [slug_matches, hxs]
      · simp [hxs]
    constructor
    · simp [bind_customer_chat, hp]
    · simp only [bind_customer_chat, hp]
      unfold find_by_slug at hp ⊢
      rw [find?_map_pointwise _ _ s hq, hp]
      simp [hmem.2]

/-- C5 (witness): binding customer endpoint 200 on a deactivated project
that already had customer endpoint 7 overwrites the binding and
reactivates it. -/
theorem bind_customer_chat_spec_witness :
    bind_customer_chat ([] : Store) "nope" 200 = (.error "Project not found", []) ∧
    (bind_customer_chat [{ slug := "proj1", customer_chat_id := some 7,
                           executor_chat_id := some 100, is_active := false }]
        "proj1" 200).1 =
      .ok { slug := "proj1", customer_chat_id := some 200,
            executor_chat_id := some 100, is_active := true } ∧
    find_by_slug (bind_customer_chat
        [{ slug := "proj1", customer_chat_id := some 7,
           executor_chat_id := some 100, is_active := false }] "proj1" 200).2 "proj1" =
      some { slug := "proj1", customer_chat_id := some 200,
             executor_chat_id := some 100, is_active := true } :=
  ⟨(bind_customer_chat_spec [] "nope" 200).1 rfl,
   ((bind_customer_chat_spec
      [{ slug := "proj1", customer_chat_id := some 7,
         executor_chat_id := some 100, is_active := false }] "proj1" 200).2
     { slug := "proj1", customer_chat_id := some 7,
       executor_chat_id := some 100, is_active := false } rfl).1,
   ((bind_customer_chat_spec
      [{ slug := "proj1", customer_chat_id := some 7,
         executor_chat_id := some 100, is_active := false }] "proj1" 200).2
     { slug := "proj1", customer_chat_id := some 7,
       executor_chat_id := some 100, is_active := false } rfl).2⟩

/-- C6: on a project bound as executor 100 / customer 200 (slug column
duplicate-free, as the PRIMARY KEY guarantees), `unlink_chat` with
endpoint 100 clears only the executor side, keeps customer endpoint 200
and the slug, and deactivates; the deactivation is unconditional for any
endpoint argument; afterwards endpoint 200 still resolves with role
"customer" but any relayed message from 200 gets the no-pairing notice. -/
theorem unlink_executor_side_spec (s : Store) (slug : String) (p : Project)
    (hnd : (s.map Project.slug).Nodup)
    (hp : find_by_slug s slug = some p)
    (hc : p.customer_chat_id = some 200)
    (he : p.executor_chat_id = some 100)
    (h200 : find_by_chat_id s 200 = some (p, "customer")) :
    (unlink_chat s slug 100).1 =
      .ok { slug := p.slug, customer_chat_id := some 200,
            executor_chat_id := none, is_active := false } ∧
    find_by_chat_id (unlink_chat s slug 100).2 200 =
      some ({ slug := p.slug, customer_chat_id := some 200,
              executor_chat_id := none, is_active := false }, "customer") ∧
    (∀ m : Message, m.chat_id = 200 →
       (match m.from_user with | some u => u.is_bot | none => false) = false →
       relay_message (unlink_chat s slug 100).2 (some m) = .noPairing) ∧
    (∀ c : Int, ∃ q : Project, (unlink_chat s slug c).1 = .ok q ∧ q.is_active = false) := by
  have hmem := find_by_slug_mem hp
  have hf : s.find? (chat_matches 200) = some p := by
    unfold find_by_chat_id at h200
    cases hfind : s.find? (chat_matches 200) with
    | none => rw [hfind] at h200; simp at h200
    | some q =>
      rw [hfind] at h200
      simp only [Option.some.injEq, Prod.mk.injEq] at h200
      rw [h200.1]
  have h2 : (unlink_chat s slug 100).2 =
      s.map (fun x : Project =>
        if x.slug == slug then
          { x with customer_chat_id := some 200, executor_chat_id := none,
                   is_active := false }
        else x) := by
    simp [unlink_chat, hp, hc, he]
  have hq : ∀ x ∈ s, chat_matches 200
      ((fun x : Project =>
        if x.slug == slug then
          { x with customer_chat_id := some 200, executor_chat_id := none,
                   is_active := false }
        else x) x) = chat_matches 200 x := by
    intro x hx
    by_cases hxs : (x.slug == slug) = true
    · have hxp : x = p := by
        refine eq_of_slug_eq_of_nodup hnd hx hmem.1 ?_
        rw [hmem.2]
        exact beq_iff_eq.mp hxs
      subst hxp
      simp [chat_matches, hxs, hc]
    · simp [hxs]
  have h3 : find_by_chat_id (unlink_chat s slug 100).2 200 =
      some ({ slug := p.slug, customer_chat_id := some 200,
              executor_chat_id := none, is_active := false }, "customer") := by
    rw [h2]
    unfold find_by_chat_id
    rw [find?_map_pointwise _ _ s hq, hf]
    simp [hmem.2]
  refine ⟨?_, h3, ?_, ?_⟩
  · simp [unlink_chat, hp, hc, he]
  · intro m hm hbot
    simp [relay_message, hbot, hm, h3, truthyInt]
  · intro c
    refine ⟨{ p with
        customer_chat_id :=
          if p.customer_chat_id == some c then none else p.customer_chat_id,
        executor_chat_id :=
          if p.executor_chat_id == some c then none else p.executor_chat_id,
        is_active := false }, ?_, rfl⟩
    simp [unlink_chat, hp]

/-- C6 (witness): the single-project store bound as executor 100 /
customer 200, unlinked at endpoint 100. -/
theorem unlink_executor_side_spec_witness :
    (unlink_chat [{ slug := "proj1", customer_chat_id := some 200,
                    executor_chat_id := some 100, is_active := true }] "proj1" 100).1 =
      .ok { slug := "proj1", customer_chat_id := some 200,
            executor_chat_id := none, is_active := false } ∧
    find_by_chat_id (unlink_chat
        [{ slug := "proj1", customer_chat_id := some 200,
           executor_chat_id := some 100, is_active := true }] "proj1" 100).2 200 =
      some ({ slug := "proj1", customer_chat_id := some 200,
              executor_chat_id := none, is_active := false }, "customer") ∧
    (∀ m : Message, m.chat_id = 200 →
       (match m.from_user with | some u => u.is_bot | none => false) = false →
       relay_message (unlink_chat
           [{ slug := "proj1", customer_chat_id := some 200,
              executor_chat_id := some 100, is_active := true }] "proj1" 100).2
         (some m) = .noPairing) ∧
    (∀ c : Int, ∃ q : Project,
       (unlink_chat [{ slug := "proj1", customer_chat_id := some 200,
                       executor_chat_id := some 100, is_active := true }] "proj1" c).1 =
         .ok q ∧ q.is_active = false) :=
  unlink_executor_side_spec _ "proj1"
    { slug := "proj1", customer_chat_id := some 200,
      executor_chat_id := some 100, is_active := true }
    (by simp) rfl rfl rfl rfl

/-- C8: `bind_customer_chat` is idempotent: a second call with the same
slug and endpoint returns the same reply and leaves the store in exactly
the state produced by the first call. -/
theorem bind_customer_chat_idempotent (s : Store) (slug : String) (e : Int) :
    bind_customer_chat (bind_customer_chat s slug e).2 slug e =
      ((bind_customer_chat s slug e).1, (bind_customer_chat s slug e).2) := by
  cases hp : find_by_slug s slug with
  | none =>
    simp [bind_customer_chat, hp]
  | some p =>
    have hmem := find_by_slug_mem hp
    have hq : ∀ x ∈ s, slug_matches slug
        ((fun x : Project =>
          if x.slug == slug then
            { x with customer_chat_id := some e, is_active := true }
          else x) x) = slug_matches slug x := by
      intro x _
      by_cases hxs : (x.slug == slug) = true
      · simp [slug_matches, hxs]
      · simp [hxs]
    have hfind2 : find_by_slug (s.map (fun x : Project =>
          if x.slug == slug then
            { x with customer_chat_id := some e, is_active := true }
          else x)) slug =
        some { p with customer_chat_id := some e, is_active := true } := by
      unfold find_by_slug at hp ⊢
      rw [find?_map_pointwise _ _ s hq, hp]
      simp [hmem.2]
    have hmaps : ∀ x ∈ s.map (fun x : Project =>
          if x.slug == slug then
            { x with customer_chat_id := some e, is_active := true }
          else x),
        (fun x : Project =>
          if x.slug == slug then
            { x with customer_chat_id := some e, is_active := true }
          else x) x = x := by
      intro x hx
      obtain ⟨y, _, rfl⟩ := List.mem_map.mp hx
      by_cases hys : (y.slug == slug) = true
      · simp [hys]
      · simp [hys]
    simp only [bind_customer_chat, hp, hfind2]
    rw [List.map_congr_left hmaps]
    simp only [List.map_id_fun', id]
